import Mathlib

/-!
# Verification of the Ultimate Squeeze Scanner core (src/api/index.py)

Shallow embedding of the scanner's pure core in Lean 4.

Modelling conventions:
* Python floats are modelled as rationals (ℚ); all the arithmetic in the
  scanner (weights such as 1.2, 0.25, thresholds, min/max clamps) is exact
  decimal arithmetic, so ℚ represents it faithfully.
* Python `int(x)` truncates toward zero; it is modelled by `pyInt`.
* Python truthiness of an optional number (`if x:` where `x` is `None` or a
  float) is modelled by `truthy`: `None` and `0` are falsy.
* Dictionaries with a fixed key set are modelled as structures; the JSON
  payload of the secondary (Ortex) source is modelled as an association list
  of keys to values, iterated in insertion order exactly as Python iterates a
  dict.
* Network effects are modelled by oracles: a price oracle
  (ticker → optional price record, the merged outcome of the concurrent
  Yahoo fan-out), a response list per ticker for the Ortex endpoints, and an
  abstract JSON parser. Wall-clock items (timestamps, scan_time_seconds,
  performance_rating) are outside the embedding.
* Python's global `random` module is modelled by an abstract seeded
  generator (`PyRandom`) whose state is threaded explicitly; `random.seed`
  replaces the state, `random.uniform` consumes it.
-/

namespace SqueezeScanner

/-- Python `int(x)` applied to a float: truncation toward zero. -/
def pyInt (q : ℚ) : ℤ := if 0 ≤ q then ⌊q⌋ else ⌈q⌉

/-- Python truthiness of an optional number: `None` and `0` are falsy. -/
def truthy : Option ℚ → Bool
  | none => false
  | some q => decide (q ≠ 0)

/-- Python truthiness of an optional string: `None` and `""` are falsy
(used for the Ortex API key). -/
def strTruthy : Option String → Bool
  | none => false
  | some s => !s.isEmpty

/-- Python `x or y` on optional strings: `x` if truthy, else `y`. -/
def pyOr (x y : Option String) : Option String :=
  if strTruthy x then x else y

/-- Python `round(x, 1)`.  (Python rounds half to even on binary floats;
the tie-breaking convention is irrelevant to every claim proved below, since
`round` is only applied to values drawn from the abstract generator.) -/
def round1 (q : ℚ) : ℚ := (⌊q * 10 + 1/2⌋ : ℚ) / 10

/-- `containsSub p l` decides whether `p` occurs as a contiguous sublist of
`l`; this is Python's `p in l` on strings (after `toList`). -/
def containsSub (p : List Char) : List Char → Bool
  | [] => p.isEmpty
  | c :: t => p.isPrefixOf (c :: t) || containsSub p t

/-- Python `pat in s` substring test on strings. -/
def strIn (pat s : String) : Bool := containsSub pat.toList s.toList

/-- Python `s.lower()`, character by character (the scanner only lowercases
ASCII JSON keys, where Python and this definition agree). -/
def strLower (s : String) : String := ⟨s.data.map Char.toLower⟩

/-- Python `s.upper()`, character by character (applied to ASCII tickers). -/
def strUpper (s : String) : String := ⟨s.data.map Char.toUpper⟩

/-- One JSON value of the secondary-source payload, as far as the scanner
inspects it: `isinstance(value, (int, float))` keeps the number, everything
else is ignored. -/
inductive JVal where
  | num (q : ℚ)
  | other
deriving DecidableEq

/-- Top-level JSON of the secondary source: a dict (association list in
insertion order) or any non-dict value (skipped by the key scan). -/
inductive OrtexJson where
  | dict (items : List (String × JVal))
  | nondict
deriving DecidableEq

/-- The normalized metrics record built by `process_ortex_json`
(the `processed` dict of src/api/index.py, lines 101-108). -/
structure OrtexRec where
  short_interest : Option ℚ
  utilization : Option ℚ
  cost_to_borrow : Option ℚ
  days_to_cover : Option ℚ
  data_quality : String
  source : String
deriving DecidableEq

/-- The initial `processed` dict: all metric fields `None`, tagged
`live_ortex` / `ortex_api` (src/api/index.py lines 101-108). -/
def emptyOrtexRec : OrtexRec :=
  { short_interest := none, utilization := none, cost_to_borrow := none,
    days_to_cover := none, data_quality := "live_ortex", source := "ortex_api" }

/-- One iteration of the key-classification loop of `process_ortex_json`
(lines 111-121): a numeric value is routed by case-insensitive substring
matching on its key; non-numeric values and unmatched keys are ignored. -/
def classifyKV (acc : OrtexRec) (kv : String × JVal) : OrtexRec :=
  match kv.2 with
  | .num v =>
    let kl := strLower kv.1
    if strIn "short_interest" kl || strIn "si" kl then
      { acc with short_interest := some v }
    else if strIn "utilization" kl || strIn "util" kl then
      { acc with utilization := some v }
    else if strIn "cost_to_borrow" kl || strIn "ctb" kl then
      { acc with cost_to_borrow := some v }
    else if strIn "days_to_cover" kl || strIn "dtc" kl then
      { acc with days_to_cover := some v }
    else acc
  | .other => acc

/-- The key-classification loop of `process_ortex_json` (lines 110-121),
iterating the dict items in insertion order; later matches overwrite
earlier ones. -/
def parseOrtexFields (items : List (String × JVal)) : OrtexRec :=
  items.foldl classifyKV emptyOrtexRec

/-- The key-scan phase of `process_ortex_json` on the whole payload:
non-dict payloads skip the loop (line 110). -/
def parseStage : OrtexJson → OrtexRec
  | .dict items => parseOrtexFields items
  | .nondict => emptyOrtexRec

/-- The estimate back-fill of `process_ortex_json` (lines 123-130).
Note the guards are Python truthiness tests (`if processed[...]:` and
`if not processed[...]:`), so a field equal to `0` counts as absent. -/
def backfillEstimates (r : OrtexRec) : OrtexRec :=
  if truthy r.short_interest then
    let si := r.short_interest.getD 0
    let r1 := if truthy r.utilization then r else
      { r with utilization := some (min (si * 3.5) 95) }
    let r2 := if truthy r1.days_to_cover then r1 else
      { r1 with days_to_cover := some (max (si * 0.2) 0.8) }
    let r3 := if truthy r2.cost_to_borrow then r2 else
      { r2 with cost_to_borrow := some (max (si * 0.4) 1.0) }
    r3
  else r

/-- `process_ortex_json` (src/api/index.py lines 99-132). -/
def process_ortex_json (j : OrtexJson) : OrtexRec :=
  backfillEstimates (parseStage j)

/-- A successful per-ticker price record, as produced by
`get_yahoo_price_data` (lines 158-165); the `ticker` and `success` keys are
represented by the record's position in the oracle mapping. -/
structure PriceRecord where
  current_price : ℚ
  price_change : ℚ
  price_change_pct : ℚ
  volume : ℕ
deriving DecidableEq

/-- Output of `calculate_squeeze_score` (lines 277-288); the
`score_breakdown` dict is the 5-tuple of truncated component scores, absent
(`none`) on the exception path (line 290). -/
structure ScoreResult where
  squeeze_score : ℤ
  squeeze_type : String
  risk_factors : List String
  score_breakdown : Option (ℤ × ℤ × ℤ × ℤ × ℤ)
deriving DecidableEq

/-- `calculate_squeeze_score` (src/api/index.py lines 241-290).
The four metric fields are read with `.get(..., 0)`, but the keys are always
present in a processed or mock record, so a missing metric is a field equal
to `None`; multiplying `None` raises `TypeError`, caught at line 289, which
yields the zeroed `Error` result.  With all four metrics present the
computation is total. -/
def calculate_squeeze_score (ortex : OrtexRec) (price : PriceRecord) : ScoreResult :=
  match ortex.short_interest, ortex.utilization, ortex.cost_to_borrow, ortex.days_to_cover with
  | some si, some util, some ctb, some dtc =>
    let pct := price.price_change_pct
    let si_score := min (si * 1.2) 35
    let util_score := min (util * 0.25) 25
    let ctb_score := min (ctb * 0.8) 20
    let dtc_score := min (dtc * 1.5) 15
    let momentum_score := if pct > 0 then max (pct * 0.3) 0 else 0
    let total_score := pyInt (si_score + util_score + ctb_score + dtc_score + momentum_score)
    let risk_factors :=
      (if si > 25 then ["EXTREME_SHORT_INTEREST"] else []) ++
      (if util > 90 then ["HIGH_UTILIZATION"] else []) ++
      (if ctb > 20 then ["HIGH_BORROWING_COSTS"] else []) ++
      (if dtc > 7 then ["LONG_COVER_TIME"] else []) ++
      (if pct > 15 then ["STRONG_MOMENTUM"] else [])
    let squeeze_type :=
      if total_score ≥ 80 then "Extreme Squeeze Risk"
      else if total_score ≥ 65 then "High Squeeze Risk"
      else if total_score ≥ 45 then "Moderate Squeeze Risk"
      else "Low Risk"
    { squeeze_score := total_score, squeeze_type := squeeze_type,
      risk_factors := risk_factors,
      score_breakdown := some (pyInt si_score, pyInt util_score, pyInt ctb_score,
        pyInt dtc_score, pyInt momentum_score) }
  | _, _, _, _ =>
    { squeeze_score := 0, squeeze_type := "Error", risk_factors := [],
      score_breakdown := none }

/-! ## Ticker universe (handler.__init__, lines 21-49) -/

def top_meme_stocks : List String :=
  ["GME", "AMC", "BBBY", "SAVA", "VXRT", "CLOV", "SPRT", "IRNT",
   "DWAC", "PHUN", "PROG", "ATER", "BBIG", "MULN", "EXPR", "KOSS"]

def high_short_interest : List String :=
  ["BYND", "PTON", "ROKU", "UPST", "AFRM", "HOOD", "COIN", "RIVN",
   "LCID", "NKLA", "PLUG", "BLNK", "QS", "GOEV", "RIDE", "WKHS"]

def biotech_squeeze : List String :=
  ["BIIB", "GILD", "REGN", "BMRN", "ALNY", "SRPT", "IONS", "ARWR",
   "EDIT", "CRSP", "NTLA", "BEAM", "BLUE", "FOLD", "RARE", "KRYS"]

def small_cap_movers : List String :=
  ["SPCE", "DKNG", "PENN", "FUBO", "WISH", "RBLX", "PLTR", "SNOW",
   "CRWD", "OKTA", "DDOG", "NET", "FSLY", "ESTC", "ZM", "DOCN"]

def large_cap_samples : List String :=
  ["AAPL", "TSLA", "META", "NFLX", "NVDA", "GOOGL", "AMZN", "MSFT"]

/-- `self.ticker_universe` in insertion order. -/
def ticker_universe : List (String × List String) :=
  [("top_meme_stocks", top_meme_stocks),
   ("high_short_interest", high_short_interest),
   ("biotech_squeeze", biotech_squeeze),
   ("small_cap_movers", small_cap_movers),
   ("large_cap_samples", large_cap_samples)]

/-- The flattening loop of lines 44-46. -/
def rawTickerConcat : List String :=
  ticker_universe.foldl (fun acc p => acc ++ p.2) []

/-- The seen-set comprehension of lines 48-49:
`[x for x in l if not (x in seen or seen.add(x))]` — keeps the first
occurrence of each element, in order. -/
def pyDedupAux (seen : List String) : List String → List String
  | [] => []
  | x :: t => if x ∈ seen then pyDedupAux seen t else x :: pyDedupAux (x :: seen) t

/-- Order-preserving first-occurrence deduplication (lines 48-49). -/
def pyDedup (l : List String) : List String := pyDedupAux [] l

/-- `self.master_ticker_list` (line 49). -/
def master_ticker_list : List String := pyDedup rawTickerConcat

/-! ## Synthetic metrics generator (`generate_realistic_mock_data`, lines 184-239) -/

/-- Abstract model of Python's global `random` module together with the
builtin `hash`: `seedFn` maps a seed to a fresh generator state
(`random.seed`), `uniformFn lo hi s` draws a value and the successor state
(`random.uniform`).  The claims hold for every such model. -/
structure PyRandom where
  hashFn : String → ℤ
  seedFn : ℤ → ℕ
  uniformFn : ℚ → ℚ → ℕ → ℚ × ℕ

/-- The `known_profiles` table (lines 189-197), as (si, util, ctb, dtc). -/
def known_profiles : List (String × (ℚ × ℚ × ℚ × ℚ)) :=
  [("GME", (22.4, 89.2, 12.8, 4.1)),
   ("AMC", (18.7, 82.1, 8.9, 3.8)),
   ("SAVA", (35.2, 95.1, 45.8, 12.3)),
   ("VXRT", (28.9, 87.6, 18.2, 8.7)),
   ("BBBY", (42.1, 98.2, 78.5, 15.8)),
   ("BYND", (31.5, 91.7, 25.3, 9.2)),
   ("PTON", (26.8, 84.5, 15.7, 6.8))]

/-- A known or generated profile packaged as the mock record of
lines 230-237. -/
def profileRec (p : ℚ × ℚ × ℚ × ℚ) : OrtexRec :=
  { short_interest := some p.1, utilization := some p.2.1,
    cost_to_borrow := some p.2.2.1, days_to_cover := some p.2.2.2,
    data_quality := "realistic_estimate", source := "enhanced_modeling" }

/-- The draw bounds of lines 206-221, selected by category membership
(the `elif` chain; high_short_interest and small_cap_movers tickers take the
default branch). -/
def categoryBounds (t : String) : (ℚ × ℚ) × (ℚ × ℚ) × (ℚ × ℚ) :=
  if t ∈ top_meme_stocks then ((15, 35), (75, 95), (10, 40))
  else if t ∈ biotech_squeeze then ((20, 40), (80, 98), (15, 60))
  else if t ∈ large_cap_samples then ((1, 6), (20, 50), (0.5, 3))
  else ((8, 25), (50, 85), (3, 20))

/-- The per-ticker body of `generate_realistic_mock_data` (lines 199-237),
threading the global generator state: known tickers return their table
profile with no draws; other tickers re-seed from
`hash(ticker) % 10000` and draw si, util, ctb, then the days-to-cover
factor, in that order. -/
def mockProfileFor (R : PyRandom) (t : String) (s : ℕ) : OrtexRec × ℕ :=
  match known_profiles.lookup t with
  | some p => (profileRec p, s)
  | none =>
    let s0 := R.seedFn (R.hashFn t % 10000)
    let b := categoryBounds t
    let d1 := R.uniformFn b.1.1 b.1.2 s0
    let d2 := R.uniformFn b.2.1.1 b.2.1.2 d1.2
    let d3 := R.uniformFn b.2.2.1 b.2.2.2 d2.2
    let d4 := R.uniformFn 0.2 0.5 d3.2
    ({ short_interest := some (round1 d1.1), utilization := some (round1 d2.1),
       cost_to_borrow := some (round1 d3.1),
       days_to_cover := some (round1 (d1.1 * d4.1)),
       data_quality := "realistic_estimate", source := "enhanced_modeling" }, d4.2)

/-- `generate_realistic_mock_data` (lines 184-239): the mock record map in
ticker order, threading the generator state. -/
def generate_realistic_mock_data (R : PyRandom) : List String → ℕ → List (String × OrtexRec) × ℕ
  | [], s => ([], s)
  | t :: ts, s =>
    let pr := mockProfileFor R t s
    let rest := generate_realistic_mock_data R ts pr.2
    ((t, pr.1) :: rest.1, rest.2)

/-! ## Metrics fetcher (`get_fast_ortex_data`, lines 66-97) -/

/-- What one candidate endpoint request can yield: an exception or timeout,
or a reply with a status code, a Content-Type header and a body. -/
inductive NetResp where
  | failure
  | reply (status : ℕ) (contentType : String) (body : String)
deriving DecidableEq

/-- The endpoint loop of lines 76-95: each candidate falls through on an
exception, a non-200 status, a Content-Type not containing
`application/json`, or a JSON decode error; the first candidate with a 200
JSON reply whose body parses is processed and returned. -/
def tryEndpoints (parseJson : String → Option OrtexJson) : List NetResp → Option OrtexRec
  | [] => none
  | .failure :: rest => tryEndpoints parseJson rest
  | .reply status ct body :: rest =>
    if status = 200 then
      if strIn "application/json" ct then
        match parseJson body with
        | some j => some (process_ortex_json j)
        | none => tryEndpoints parseJson rest
      else tryEndpoints parseJson rest
    else tryEndpoints parseJson rest

/-- `get_fast_ortex_data` (lines 66-97): a falsy key (absent or empty)
returns `None` (line 68-69) before any request; otherwise the candidate
replies are tried in endpoint order. -/
def get_fast_ortex_data (parseJson : String → Option OrtexJson)
    (ortexKey : Option String) (responses : List NetResp) : Option OrtexRec :=
  if strTruthy ortexKey then tryEndpoints parseJson responses else none

/-! ## Scan orchestrator (`perform_production_scan`, lines 292-369) -/

/-- One merged per-ticker scan result (lines 339-351); the `timestamp` key
is wall-clock and outside the embedding, and the single-scan variant's extra
`score_breakdown` key is carried in `ScoreResult`. -/
structure ScanResult where
  ticker : String
  squeeze_score : ℤ
  squeeze_type : String
  current_price : ℚ
  price_change : ℚ
  price_change_pct : ℚ
  volume : ℕ
  ortex_data : OrtexRec
  risk_factors : List String
  data_quality : String
deriving DecidableEq

/-- The sort key order of line 355: `x` may precede `y` iff
`x['squeeze_score'] >= y['squeeze_score']` (descending). -/
def scoreGe (a b : ScanResult) : Prop := b.squeeze_score ≤ a.squeeze_score

instance : DecidableRel scoreGe := fun a b =>
  inferInstanceAs (Decidable (b.squeeze_score ≤ a.squeeze_score))

instance : IsTotal ScanResult scoreGe := ⟨fun a b => le_total b.squeeze_score a.squeeze_score⟩

instance : IsTrans ScanResult scoreGe := ⟨fun _ _ _ h1 h2 => le_trans h2 h1⟩

/-- The RANK step (line 355): `results.sort(key=..., reverse=True)`.
Python's sort is a stable descending sort by score; a stable sort of a list
under a total preorder has a unique output, and insertion sort with
`scoreGe` (insert before the first strictly smaller score) is that output,
so this embedding is extensionally equal to Python's Timsort call. -/
def rankResults (l : List ScanResult) : List ScanResult := l.insertionSort scoreGe

/-- The `filters` request dict: `categories` absent or empty is falsy;
`max_tickers` absent defaults to 10 (line 307).  A missing or empty
`filters` dict is falsy and is modelled as `none` at the call site. -/
structure ScanFilters where
  categories : List String
  max_tickers : Option ℕ
deriving DecidableEq

/-- The environment of one scan: the outcome mapping of the concurrent
price fan-out, the per-ticker Ortex endpoint replies, the JSON parser, the
random model and its incoming global state, and the iteration order that
Python's `set` imposes in `list(set(...))` (line 305). -/
structure ScanEnv where
  price : String → Option PriceRecord
  net : String → List NetResp
  parseJson : String → Option OrtexJson
  rng : PyRandom
  rngState0 : ℕ
  setOrder : List String → List String

/-- The category-selection expression of lines 301-305: concatenate the
ticker lists of the recognized selected categories in order. -/
def selectedConcat (cats : List String) : List String :=
  cats.foldl (fun acc c => acc ++ ((ticker_universe.lookup c).getD [])) []

/-- The ticker selection of the SELECT step before the batch cap
(lines 299-305): no selected categories yields the full master list,
otherwise the selected categories' tickers pass through `list(set(...))`,
whose iteration order is the environment's `setOrder`. -/
def tickersFor (setOrder : List String → List String) (cats : List String) : List String :=
  if cats = [] then master_ticker_list
  else setOrder (selectedConcat cats)

/-- The full SELECT step (lines 296-310) including the batch-size cap:
`max_tickers` (default 10) clamped by `max_safe_batch_size = 15` when a
filters dict is present, plain `[:10]` otherwise. -/
def selectTickers (env : ScanEnv) (filters : Option ScanFilters) : List String :=
  match filters with
  | some f => (tickersFor env.setOrder f.categories).take (min (f.max_tickers.getD 10) 15)
  | none => master_ticker_list.take 10

/-- The live-metrics loop of lines 317-325: only with a truthy key and at
most 8 priced tickers, only the first 5 priced tickers, keeping the
successful fetches in order. -/
def liveFetched (env : ScanEnv) (ortexKey : Option String)
    (successful : List String) : List (String × OrtexRec) :=
  if strTruthy ortexKey ∧ successful.length ≤ 8 then
    (successful.take 5).filterMap
      (fun t => (get_fast_ortex_data env.parseJson ortexKey (env.net t)).map (fun r => (t, r)))
  else []

/-- The per-ticker merge of lines 337-352: score the metrics against the
price record and copy the shared fields; `data_quality` is read back from
the metrics record (line 349, whose `'estimate'` default is dead because the
key is always present). -/
def buildResult (t : String) (p : PriceRecord) (orec : OrtexRec) : ScanResult :=
  let sm := calculate_squeeze_score orec p
  { ticker := t, squeeze_score := sm.squeeze_score, squeeze_type := sm.squeeze_type,
    current_price := p.current_price, price_change := p.price_change,
    price_change_pct := p.price_change_pct, volume := p.volume,
    ortex_data := orec, risk_factors := sm.risk_factors,
    data_quality := orec.data_quality }

/-- `scan_stats` (lines 361-368) without the wall-clock entries. -/
structure ScanStats where
  total_tickers_scanned : ℕ
  successful_analysis : ℕ
  live_ortex_count : ℕ
deriving DecidableEq

/-- The scan response (lines 359-369). -/
structure ScanOutput where
  results : List ScanResult
  stats : ScanStats
deriving DecidableEq

/-- Line 314: the tickers of the batch whose price fetch succeeded. -/
def successfulTickers (env : ScanEnv) (filters : Option ScanFilters) : List String :=
  (selectTickers env filters).filter (fun t => (env.price t).isSome)

/-- Lines 328-331: the mock record map generated for the priced tickers. -/
def scanMock (env : ScanEnv) (filters : Option ScanFilters) : List (String × OrtexRec) :=
  (generate_realistic_mock_data env.rng (successfulTickers env filters) env.rngState0).1

/-- Lines 335-352: the per-ticker merge; a live record wins over the mock
back-fill (lines 329-331), and a priced ticker always has a mock record, so
the last arm is dead in the orchestrator. -/
def mergeTicker (env : ScanEnv) (fetched mock : List (String × OrtexRec))
    (t : String) : Option ScanResult :=
  match env.price t, fetched.lookup t, mock.lookup t with
  | some p, some orec, _ => some (buildResult t p orec)
  | some p, none, some orec => some (buildResult t p orec)
  | _, _, _ => none

/-- `perform_production_scan` (lines 292-369): SELECT, drop unpriced
tickers, fetch live metrics for the bounded leading subset, back-fill with
mock data, score and merge, rank, report. -/
def perform_production_scan (env : ScanEnv) (ortexKey : Option String)
    (filters : Option ScanFilters) : ScanOutput :=
  let scan_tickers := selectTickers env filters
  let successful := successfulTickers env filters
  let fetched := liveFetched env ortexKey successful
  let mock := scanMock env filters
  let results := successful.filterMap (mergeTicker env fetched mock)
  let ranked := rankResults results
  { results := ranked,
    stats := { total_tickers_scanned := scan_tickers.length,
               successful_analysis := ranked.length,
               live_ortex_count := fetched.length } }

/-! ## Single-ticker endpoint (`handle_single_scan`, lines 414-470) -/

/-- The parsed request body of `/api/single-scan`: the two keys read with
`data.get` (absent keys modelled as `none`; an empty or absent body is the
record with both fields `none`). -/
structure SingleScanBody where
  ticker : Option String
  ortex_key : Option String
deriving DecidableEq

/-- The JSON responses sent by `handle_single_scan`, restricted to the keys
it sets: HTTP status, `success`, `error`, `result`. -/
structure JsonResponse where
  status : ℕ
  success : Bool
  error : Option String
  result : Option ScanResult
deriving DecidableEq

/-- `handle_single_scan` (lines 414-470): uppercase the ticker, reject an
empty one with a 400 before any lookup, reject a failed price lookup with a
distinct 400, otherwise try live metrics (when the body key or the
environment key is truthy) and fall back to mock data, then score. -/
def handle_single_scan (env : ScanEnv) (envKey : Option String)
    (b : SingleScanBody) : JsonResponse :=
  let ticker := strUpper (b.ticker.getD "")
  let key := pyOr b.ortex_key envKey
  if ticker = "" then
    { status := 400, success := false, error := some "No ticker provided", result := none }
  else
    match env.price ticker with
    | none =>
      { status := 400, success := false, error := some "Failed to get price data", result := none }
    | some p =>
      let live := if strTruthy key then get_fast_ortex_data env.parseJson key (env.net ticker) else none
      let orec := match live with
        | some r => r
        | none => ((generate_realistic_mock_data env.rng [ticker] env.rngState0).1.lookup ticker).getD emptyOrtexRec
      { status := 200, success := true, error := none,
        result := some (buildResult ticker p orec) }

/-! ## Auxiliary definitions for claim statements and witnesses -/

/-- A candidate endpoint attempt that does not produce a usable payload:
an exception, a non-200 status, a non-JSON Content-Type, or a body
that fails to parse. -/
def candidateFails (parseJson : String → Option OrtexJson) : NetResp → Prop
  | .failure => True
  | .reply status ct body =>
      status ≠ 200 ∨ strIn "application/json" ct = false ∨ parseJson body = none

/-- A minimal scan result used to exercise the RANK step on concrete
inputs. -/
def sampleResult (n : ℤ) (t : String) : ScanResult :=
  { ticker := t, squeeze_score := n, squeeze_type := "", current_price := 0,
    price_change := 0, price_change_pct := 0, volume := 0,
    ortex_data := emptyOrtexRec, risk_factors := [], data_quality := "realistic_estimate" }

/-- The spec's reading of the back-fill rule, with presence meant literally
("applied only when shortInterest is present and a derived field is
missing"): a present derived field is kept, a missing one is estimated, and
without shortInterest nothing changes.  Stated over the code's
normalization pipeline to compare against its actual truthiness guards. -/
def specC5BackfillClaim : Prop :=
  ∀ j : OrtexJson,
    ((parseStage j).short_interest.isSome →
      (process_ortex_json j).utilization =
        (if (parseStage j).utilization.isSome then (parseStage j).utilization
         else some (min (((parseStage j).short_interest.getD 0) * 3.5) 95)) ∧
      (process_ortex_json j).days_to_cover =
        (if (parseStage j).days_to_cover.isSome then (parseStage j).days_to_cover
         else some (max (((parseStage j).short_interest.getD 0) * 0.2) 0.8)) ∧
      (process_ortex_json j).cost_to_borrow =
        (if (parseStage j).cost_to_borrow.isSome then (parseStage j).cost_to_borrow
         else some (max (((parseStage j).short_interest.getD 0) * 0.4) 1.0))) ∧
    (¬ (parseStage j).short_interest.isSome → process_ortex_json j = parseStage j)

/-- An admissible iteration order for Python's `list(set(...))`: it returns
the distinct elements of its input, in some order.  (CPython's actual order
depends on string hashes and the hash seed; any such order satisfies
this.) -/
def ValidSetOrder (f : List String → List String) : Prop :=
  ∀ l : List String, (f l).Nodup ∧ ∀ x, x ∈ f l ↔ x ∈ l

/-- The spec's reading of category selection as an ordered, deduplicated
list: selecting categories would yield the first-occurrence dedup of the
selected tickers in table order, whichever admissible set order the
runtime exhibits. -/
def specC8OrderedClaim : Prop :=
  ∀ f, ValidSetOrder f → ∀ cats : List String, cats ≠ [] →
    tickersFor f cats = pyDedup (selectedConcat cats)

/-- A deterministic stand-in for the random model, used by witnesses. -/
def wRng : PyRandom :=
  { hashFn := fun _ => 0, seedFn := fun _ => 0, uniformFn := fun a _ s => (a, s + 1) }

/-- A concrete successful price record used by witnesses. -/
def wPriceRec : PriceRecord :=
  { current_price := 25.5, price_change := 1.5, price_change_pct := 6.25, volume := 1000000 }

/-- A concrete environment in which only AAPL has price data and the
metrics source is unreachable. -/
def wEnv : ScanEnv :=
  { price := fun t => if t = "AAPL" then some wPriceRec else none,
    net := fun _ => [], parseJson := fun _ => none,
    rng := wRng, rngState0 := 0, setOrder := fun l => l }

/-- A concrete filters dict selecting the large-cap category, capped at 3. -/
def wFilters : Option ScanFilters :=
  some { categories := ["large_cap_samples"], max_tickers := some 3 }

/-- A concrete price record with strong positive momentum. -/
def wPriceHigh : PriceRecord :=
  { current_price := 10, price_change := 2, price_change_pct := 20, volume := 5 }

/-- A concrete JSON parser recognizing exactly one body. -/
def wParse : String → Option OrtexJson :=
  fun s => if s = "body0" then some (OrtexJson.dict []) else none

/-- A parsed record with shortInterest 10 and an explicit zero utilization. -/
def wRecBoth : OrtexRec :=
  { short_interest := some 10, utilization := some 0, cost_to_borrow := some 5,
    days_to_cover := some 3, data_quality := "live_ortex", source := "ortex_api" }

/-- A parsed record with shortInterest exactly 0. -/
def wRecZero : OrtexRec :=
  { short_interest := some 0, utilization := none, cost_to_borrow := none,
    days_to_cover := none, data_quality := "live_ortex", source := "ortex_api" }

/-! ## Shared helper lemmas -/

theorem pyInt_of_nonneg {q : ℚ} (h : 0 ≤ q) : pyInt q = ⌊q⌋ := if_pos h

theorem calculate_squeeze_score_eq (si util ctb dtc : ℚ) (dq src : String) (p : PriceRecord) :
    calculate_squeeze_score
      { short_interest := some si, utilization := some util,
        cost_to_borrow := some ctb, days_to_cover := some dtc,
        data_quality := dq, source := src } p =
    { squeeze_score := pyInt (min (si * 1.2) 35 + min (util * 0.25) 25 + min (ctb * 0.8) 20 +
        min (dtc * 1.5) 15 +
        (if p.price_change_pct > 0 then max (p.price_change_pct * 0.3) 0 else 0)),
      squeeze_type :=
        (if pyInt (min (si * 1.2) 35 + min (util * 0.25) 25 + min (ctb * 0.8) 20 +
            min (dtc * 1.5) 15 +
            (if p.price_change_pct > 0 then max (p.price_change_pct * 0.3) 0 else 0)) ≥ 80
         then "Extreme Squeeze Risk"
         else if pyInt (min (si * 1.2) 35 + min (util * 0.25) 25 + min (ctb * 0.8) 20 +
            min (dtc * 1.5) 15 +
            (if p.price_change_pct > 0 then max (p.price_change_pct * 0.3) 0 else 0)) ≥ 65
         then "High Squeeze Risk"
         else if pyInt (min (si * 1.2) 35 + min (util * 0.25) 25 + min (ctb * 0.8) 20 +
            min (dtc * 1.5) 15 +
            (if p.price_change_pct > 0 then max (p.price_change_pct * 0.3) 0 else 0)) ≥ 45
         then "Moderate Squeeze Risk" else "Low Risk"),
      risk_factors :=
        (if si > 25 then ["EXTREME_SHORT_INTEREST"] else []) ++
        (if util > 90 then ["HIGH_UTILIZATION"] else []) ++
        (if ctb > 20 then ["HIGH_BORROWING_COSTS"] else []) ++
        (if dtc > 7 then ["LONG_COVER_TIME"] else []) ++
        (if p.price_change_pct > 15 then ["STRONG_MOMENTUM"] else []),
      score_breakdown := some (pyInt (min (si * 1.2) 35), pyInt (min (util * 0.25) 25),
        pyInt (min (ctb * 0.8) 20), pyInt (min (dtc * 1.5) 15),
        pyInt (if p.price_change_pct > 0 then max (p.price_change_pct * 0.3) 0 else 0)) } := rfl

/-! ## C1: scoring formula and classification -/

/-- C1: for every metrics record (nonnegative shortInterest, utilization,
costToBorrow, daysToCover) and any price-change percentage, the total
squeeze score is the floor of
min(si*1.2,35) + min(util*0.25,25) + min(ctb*0.8,20) + min(dtc*1.5,15)
plus pct*0.3 when pct is positive and 0 otherwise, and the total is
classified Extreme at 80 and above, High on [65,80), Moderate on [45,65),
and Low Risk below 45. -/
theorem squeeze_score_formula_correct
    (si util ctb dtc : ℚ) (dq src : String) (p : PriceRecord)
    (hsi : 0 ≤ si) (hutil : 0 ≤ util) (hctb : 0 ≤ ctb) (hdtc : 0 ≤ dtc)
    (res : ScoreResult)
    (hres : res = calculate_squeeze_score
      { short_interest := some si, utilization := some util,
        cost_to_borrow := some ctb, days_to_cover := some dtc,
        data_quality := dq, source := src } p) :
    res.squeeze_score =
      ⌊min (si * 1.2) 35 + min (util * 0.25) 25 + min (ctb * 0.8) 20 +
        min (dtc * 1.5) 15 +
        (if p.price_change_pct > 0 then p.price_change_pct * 0.3 else 0)⌋ ∧
    (80 ≤ res.squeeze_score → res.squeeze_type = "Extreme Squeeze Risk") ∧
    (65 ≤ res.squeeze_score ∧ res.squeeze_score < 80 → res.squeeze_type = "High Squeeze Risk") ∧
    (45 ≤ res.squeeze_score ∧ res.squeeze_score < 65 → res.squeeze_type = "Moderate Squeeze Risk") ∧
    (res.squeeze_score < 45 → res.squeeze_type = "Low Risk") := by
  subst hres
  rw [calculate_squeeze_score_eq]
  have hmom : (if p.price_change_pct > 0 then max (p.price_change_pct * 0.3) 0 else 0)
      = (if p.price_change_pct > 0 then p.price_change_pct * 0.3 else 0) := by
    split_ifs with h
    · exact max_eq_left (mul_nonneg h.le (by norm_num))
    · rfl
  have hnn : (0:ℚ) ≤ min (si * 1.2) 35 + min (util * 0.25) 25 + min (ctb * 0.8) 20 +
      min (dtc * 1.5) 15 +
      (if p.price_change_pct > 0 then max (p.price_change_pct * 0.3) 0 else 0) := by
    have h1 : (0:ℚ) ≤ min (si * 1.2) 35 := le_min (by positivity) (by norm_num)
    have h2 : (0:ℚ) ≤ min (util * 0.25) 25 := le_min (by positivity) (by norm_num)
    have h3 : (0:ℚ) ≤ min (ctb * 0.8) 20 := le_min (by positivity) (by norm_num)
    have h4 : (0:ℚ) ≤ min (dtc * 1.5) 15 := le_min (by positivity) (by norm_num)
    have h5 : (0:ℚ) ≤ (if p.price_change_pct > 0 then max (p.price_change_pct * 0.3) 0 else 0) := by
      split_ifs
      · exact le_max_right _ _
      · exact le_refl 0
    linarith
  rw [hmom] at hnn ⊢
  rw [pyInt_of_nonneg hnn]
  set n := ⌊min (si * 1.2) 35 + min (util * 0.25) 25 + min (ctb * 0.8) 20 +
      min (dtc * 1.5) 15 +
      (if p.price_change_pct > 0 then p.price_change_pct * 0.3 else 0)⌋ with hn
  refine ⟨rfl, ?_, ?_, ?_, ?_⟩ <;>
  · dsimp only
    intro h
    split_ifs <;> first | rfl | omega

/-- C1 witness: a record with si 30, util 95, ctb 25, dtc 8 and a +20%
price move scores at least 80 and is classified as extreme squeeze risk. -/
theorem squeeze_score_formula_correct_witness :
    (calculate_squeeze_score
      { short_interest := some 30, utilization := some 95, cost_to_borrow := some 25,
        days_to_cover := some 8, data_quality := "live_ortex", source := "ortex_api" }
      wPriceHigh).squeeze_type = "Extreme Squeeze Risk" := by
  have h := squeeze_score_formula_correct 30 95 25 8 "live_ortex" "ortex_api" wPriceHigh
    (by norm_num) (by norm_num) (by norm_num) (by norm_num) _ rfl
  apply h.2.1
  rw [h.1]
  show (80:ℤ) ≤ ⌊min ((30:ℚ) * 1.2) 35 + min ((95:ℚ) * 0.25) 25 + min ((25:ℚ) * 0.8) 20 +
    min ((8:ℚ) * 1.5) 15 + (if (20:ℚ) > 0 then (20:ℚ) * 0.3 else 0)⌋
  norm_num [min_def]

/-! ## C2: risk-factor tags -/

/-- C2: the scoring function emits EXTREME_SHORT_INTEREST iff si > 25,
HIGH_UTILIZATION iff util > 90, HIGH_BORROWING_COSTS iff ctb > 20,
LONG_COVER_TIME iff dtc > 7, and STRONG_MOMENTUM iff pct > 15; each tag
depends only on its own condition, so the tags are independent and may
co-occur. -/
theorem risk_factor_tags_correct (si util ctb dtc : ℚ) (dq src : String) (p : PriceRecord) :
    let rf := (calculate_squeeze_score
      { short_interest := some si, utilization := some util,
        cost_to_borrow := some ctb, days_to_cover := some dtc,
        data_quality := dq, source := src } p).risk_factors
    ("EXTREME_SHORT_INTEREST" ∈ rf ↔ si > 25) ∧
    ("HIGH_UTILIZATION" ∈ rf ↔ util > 90) ∧
    ("HIGH_BORROWING_COSTS" ∈ rf ↔ ctb > 20) ∧
    ("LONG_COVER_TIME" ∈ rf ↔ dtc > 7) ∧
    ("STRONG_MOMENTUM" ∈ rf ↔ p.price_change_pct > 15) := by
  rw [calculate_squeeze_score_eq]
  dsimp only
  refine ⟨?_, ?_, ?_, ?_, ?_⟩ <;>
  · simp only [List.mem_append]
    split_ifs <;> simp_all

/-! ## C3: ranking -/

/-- C3: the RANK step is a permutation of its input, sorted by descending
squeeze score, and stable (an equal-score pair keeps its prior relative
order); on inputs with scores [30, 90, 60] it yields [90, 60, 30]. -/
theorem rank_descending_stable :
    (∀ l : List ScanResult,
      (rankResults l).Perm l ∧
      (rankResults l).Pairwise scoreGe ∧
      (∀ a b : ScanResult, a.squeeze_score = b.squeeze_score →
        List.Sublist [a, b] l → List.Sublist [a, b] (rankResults l))) ∧
    rankResults [sampleResult 30 "A", sampleResult 90 "B", sampleResult 60 "C"] =
      [sampleResult 90 "B", sampleResult 60 "C", sampleResult 30 "A"] := by
  refine ⟨fun l => ⟨List.perm_insertionSort scoreGe l,
    List.sorted_insertionSort scoreGe l, ?_⟩, by decide⟩
  intro a b hab hsub
  exact List.pair_sublist_insertionSort (le_of_eq hab.symm) hsub

/-- C3 witness: a concrete equal-score pair stays in its input order after
ranking. -/
theorem rank_descending_stable_witness :
    List.Sublist [sampleResult 50 "A", sampleResult 50 "B"]
      (rankResults [sampleResult 50 "A", sampleResult 50 "B"]) :=
  (rank_descending_stable.1 [sampleResult 50 "A", sampleResult 50 "B"]).2.2 _ _ rfl
    (List.Sublist.refl _)

/-! ## Normalization lemmas (back-fill and tags) -/

theorem backfill_spec (r : OrtexRec) :
    (truthy r.short_interest = true →
      (backfillEstimates r).utilization =
        (if truthy r.utilization then r.utilization
         else some (min ((r.short_interest.getD 0) * 3.5) 95)) ∧
      (backfillEstimates r).days_to_cover =
        (if truthy r.days_to_cover then r.days_to_cover
         else some (max ((r.short_interest.getD 0) * 0.2) 0.8)) ∧
      (backfillEstimates r).cost_to_borrow =
        (if truthy r.cost_to_borrow then r.cost_to_borrow
         else some (max ((r.short_interest.getD 0) * 0.4) 1.0)) ∧
      (backfillEstimates r).short_interest = r.short_interest) ∧
    (truthy r.short_interest = false → backfillEstimates r = r) ∧
    (backfillEstimates r).data_quality = r.data_quality ∧
    (backfillEstimates r).source = r.source := by
  unfold backfillEstimates
  by_cases h : truthy r.short_interest <;>
    simp only [h, if_true, if_false, Bool.true_eq_false, Bool.false_eq_true] <;>
    by_cases hu : truthy r.utilization <;>
    by_cases hd : truthy r.days_to_cover <;>
    by_cases hc : truthy r.cost_to_borrow <;>
    simp_all

theorem classifyKV_tags (acc : OrtexRec) (kv : String × JVal) :
    (classifyKV acc kv).data_quality = acc.data_quality ∧
    (classifyKV acc kv).source = acc.source := by
  rcases kv with ⟨k, v⟩
  cases v <;> unfold classifyKV <;> dsimp only
  · split_ifs <;> exact ⟨rfl, rfl⟩
  · exact ⟨rfl, rfl⟩

theorem parseStage_tags (j : OrtexJson) :
    (parseStage j).data_quality = "live_ortex" ∧ (parseStage j).source = "ortex_api" := by
  have key : ∀ (items : List (String × JVal)) (acc : OrtexRec),
      (items.foldl classifyKV acc).data_quality = acc.data_quality ∧
      (items.foldl classifyKV acc).source = acc.source := by
    intro items
    induction items with
    | nil => exact fun acc => ⟨rfl, rfl⟩
    | cons kv tl ih =>
      intro acc
      have h1 := classifyKV_tags acc kv
      have h2 := ih (classifyKV acc kv)
      exact ⟨h2.1.trans h1.1, h2.2.trans h1.2⟩
  cases j with
  | nondict => exact ⟨rfl, rfl⟩
  | dict items => exact key items emptyOrtexRec

theorem process_ortex_json_tags (j : OrtexJson) :
    (process_ortex_json j).data_quality = "live_ortex" ∧
    (process_ortex_json j).source = "ortex_api" :=
  ⟨((backfill_spec (parseStage j)).2.2.1).trans (parseStage_tags j).1,
   ((backfill_spec (parseStage j)).2.2.2).trans (parseStage_tags j).2⟩

/-! ## C5: back-fill rule (corrected: presence is truthiness) -/

/-- C5 counterexample: the back-fill rule as literally specified is false
on the code.  The payload with keys si = 10 and util = 0 has utilization
present (value 0), yet the code overwrites it with min(10*3.5, 95) = 35,
because the guard is `if not processed[...]` and 0 is falsy. -/
theorem backfill_presence_claim_refuted : ¬ specC5BackfillClaim := by
  intro h
  have h2 := (h (.dict [("si", .num 10), ("util", .num 0)])).1
    (of_decide_eq_true (by with_unfolding_all rfl))
  have h3 : (process_ortex_json (.dict [("si", .num 10), ("util", .num 0)])).utilization =
      some 0 := by
    rw [h2.1]
    with_unfolding_all rfl
  have h4 : (process_ortex_json (.dict [("si", .num 10), ("util", .num 0)])).utilization =
      some 35 := of_decide_eq_true (by with_unfolding_all rfl)
  rw [h4] at h3
  exact absurd h3 (by norm_num)

/-- C5 (amended): for every raw payload, when the parsed shortInterest is
present and nonzero, each of utilization, daysToCover, costToBorrow is set
by its estimation formula when it is absent or zero and kept otherwise,
shortInterest itself is unchanged; when shortInterest is absent or zero no
field changes; and the record keeps the live_ortex / ortex_api tags. -/
theorem backfill_truthiness_amended (j : OrtexJson) :
    (truthy (parseStage j).short_interest = true →
      (process_ortex_json j).utilization =
        (if truthy (parseStage j).utilization then (parseStage j).utilization
         else some (min (((parseStage j).short_interest.getD 0) * 3.5) 95)) ∧
      (process_ortex_json j).days_to_cover =
        (if truthy (parseStage j).days_to_cover then (parseStage j).days_to_cover
         else some (max (((parseStage j).short_interest.getD 0) * 0.2) 0.8)) ∧
      (process_ortex_json j).cost_to_borrow =
        (if truthy (parseStage j).cost_to_borrow then (parseStage j).cost_to_borrow
         else some (max (((parseStage j).short_interest.getD 0) * 0.4) 1.0)) ∧
      (process_ortex_json j).short_interest = (parseStage j).short_interest) ∧
    (truthy (parseStage j).short_interest = false → process_ortex_json j = parseStage j) ∧
    (process_ortex_json j).data_quality = "live_ortex" ∧
    (process_ortex_json j).source = "ortex_api" := by
  have h := backfill_spec (parseStage j)
  exact ⟨h.1, h.2.1, (process_ortex_json_tags j).1, (process_ortex_json_tags j).2⟩

/-- C5 witness: the payload si = 10, util = 0 ends with utilization 35. -/
theorem backfill_truthiness_amended_witness :
    (process_ortex_json (OrtexJson.dict [("si", JVal.num 10), ("util", JVal.num 0)])).utilization =
      some 35 := by
  have h := (backfill_truthiness_amended (OrtexJson.dict [("si", JVal.num 10), ("util", JVal.num 0)])).1
    (of_decide_eq_true (by with_unfolding_all rfl))
  have hutil : (parseStage (OrtexJson.dict [("si", JVal.num 10), ("util", JVal.num 0)])).utilization =
      some 0 := of_decide_eq_true (by with_unfolding_all rfl)
  have hsi : (parseStage (OrtexJson.dict [("si", JVal.num 10), ("util", JVal.num 0)])).short_interest =
      some 10 := of_decide_eq_true (by with_unfolding_all rfl)
  rw [h.1, hutil, hsi]
  norm_num [truthy, min_def]

/-! ## C10: presence is judged by truthiness -/

/-- C10: in the back-fill phase presence is truthiness, not key presence:
a parsed shortInterest equal to 0 disables all back-fill and leaves the
record unchanged, while with a nonzero shortInterest a parsed utilization,
daysToCover, or costToBorrow equal to 0 is treated as missing and
overwritten by its estimation formula. -/
theorem truthiness_backfill_behavior (r : OrtexRec) :
    (r.short_interest = some 0 → backfillEstimates r = r) ∧
    (∀ s : ℚ, r.short_interest = some s → s ≠ 0 →
      (r.utilization = some 0 →
        (backfillEstimates r).utilization = some (min (s * 3.5) 95)) ∧
      (r.days_to_cover = some 0 →
        (backfillEstimates r).days_to_cover = some (max (s * 0.2) 0.8)) ∧
      (r.cost_to_borrow = some 0 →
        (backfillEstimates r).cost_to_borrow = some (max (s * 0.4) 1.0))) := by
  constructor
  · intro h0
    refine (backfill_spec r).2.1 ?_
    rw [h0]
    simp [truthy]
  · intro s hs hns
    have ht : truthy r.short_interest = true := by
      rw [hs]
      simp [truthy, hns]
    have h := (backfill_spec r).1 ht
    have hgd : r.short_interest.getD 0 = s := by rw [hs]; rfl
    refine ⟨fun hu => ?_, fun hd => ?_, fun hc => ?_⟩
    · rw [h.1, hu, hgd]
      simp [truthy]
    · rw [h.2.1, hd, hgd]
      simp [truthy]
    · rw [h.2.2.1, hc, hgd]
      simp [truthy]

/-- C10 witness: a record with si = 0 passes through unchanged, and a
record with si = 10 and util = 0 gets utilization overwritten to 35. -/
theorem truthiness_backfill_behavior_witness :
    backfillEstimates wRecZero = wRecZero ∧
    (backfillEstimates wRecBoth).utilization = some 35 := by
  constructor
  · exact (truthiness_backfill_behavior wRecZero).1 rfl
  · have h := ((truthiness_backfill_behavior wRecBoth).2 10 rfl (by norm_num)).1 rfl
    rw [h]
    norm_num [min_def]

/-! ## C6: metrics fetch fallthrough -/

theorem tryEndpoints_all_fail (parseJson : String → Option OrtexJson) :
    ∀ resps : List NetResp, (∀ r ∈ resps, candidateFails parseJson r) →
      tryEndpoints parseJson resps = none := by
  intro resps
  induction resps with
  | nil => intro _; rfl
  | cons r tl ih =>
    intro h
    have hr := h r (List.mem_cons_self r tl)
    have htl := ih (fun x hx => h x (List.mem_cons_of_mem r hx))
    cases r with
    | failure => simpa [tryEndpoints] using htl
    | reply status ct body =>
      unfold tryEndpoints
      rcases hr with h1 | h1 | h1 <;> split_ifs <;> simp_all

theorem tryEndpoints_first_success (parseJson : String → Option OrtexJson)
    (ct body : String) (j : OrtexJson) :
    ∀ (pre post : List NetResp), (∀ r ∈ pre, candidateFails parseJson r) →
      strIn "application/json" ct = true → parseJson body = some j →
      tryEndpoints parseJson (pre ++ NetResp.reply 200 ct body :: post) =
        some (process_ortex_json j) := by
  intro pre post hpre hct hj
  induction pre with
  | nil => simp [tryEndpoints, hct, hj]
  | cons r tl ih =>
    have hr := hpre r (List.mem_cons_self r tl)
    have htl := ih (fun x hx => hpre x (List.mem_cons_of_mem r hx))
    cases r with
    | failure => simpa [tryEndpoints] using htl
    | reply status ct2 body2 =>
      show tryEndpoints parseJson (NetResp.reply status ct2 body2 :: (tl ++ _)) = _
      unfold tryEndpoints
      rcases hr with h1 | h1 | h1 <;> split_ifs <;> simp_all

/-- C6: the per-ticker metrics fetch returns no data (never an error) when
the credential is falsy or every candidate fails; candidates are tried in
order, an exception, non-200 status, wrong content type, or parse failure
falls through to the next candidate, and the first candidate yielding a
200 JSON reply that parses is used — the result does not depend on the
candidates after it. -/
theorem metrics_fetch_fallback (parseJson : String → Option OrtexJson) (key : Option String) :
    (strTruthy key = false → ∀ resps, get_fast_ortex_data parseJson key resps = none) ∧
    (∀ resps, (∀ r ∈ resps, candidateFails parseJson r) →
      get_fast_ortex_data parseJson key resps = none) ∧
    (∀ (pre post : List NetResp) (ct body : String) (j : OrtexJson),
      (∀ r ∈ pre, candidateFails parseJson r) →
      strIn "application/json" ct = true → parseJson body = some j →
      get_fast_ortex_data parseJson key (pre ++ NetResp.reply 200 ct body :: post) =
        if strTruthy key then some (process_ortex_json j) else none) := by
  refine ⟨?_, ?_, ?_⟩
  · intro hk resps
    unfold get_fast_ortex_data
    rw [hk]
    rfl
  · intro resps h
    unfold get_fast_ortex_data
    split_ifs with hk
    · exact tryEndpoints_all_fail parseJson resps h
    · rfl
  · intro pre post ct body j hpre hct hj
    unfold get_fast_ortex_data
    split_ifs with hk
    · exact tryEndpoints_first_success parseJson ct body j pre post hpre hct hj
    · rfl

/-- C6 witness: with a truthy key, after one failed candidate the first
successful 200 JSON candidate is used, with a further candidate behind it
that is never consulted. -/
theorem metrics_fetch_fallback_witness :
    get_fast_ortex_data wParse (some "k")
      ([NetResp.failure] ++ NetResp.reply 200 "application/json" "body0" :: [NetResp.failure]) =
      some (process_ortex_json (OrtexJson.dict [])) := by
  have h := (metrics_fetch_fallback wParse (some "k")).2.2 [NetResp.failure] [NetResp.failure]
    "application/json" "body0" (OrtexJson.dict [])
    (by rintro r hr; rw [List.mem_singleton] at hr; subst hr; exact trivial)
    (by decide) rfl
  rw [h]
  rfl

/-! ## C7: synthetic metrics determinism -/

theorem mockProfileFor_state_independent (R : PyRandom) (t : String) (s1 s2 : ℕ) :
    (mockProfileFor R t s1).1 = (mockProfileFor R t s2).1 := by
  unfold mockProfileFor
  cases h : known_profiles.lookup t <;> simp [h]

theorem mockProfileFor_tags (R : PyRandom) (t : String) (s : ℕ) :
    (mockProfileFor R t s).1.data_quality = "realistic_estimate" ∧
    (mockProfileFor R t s).1.source = "enhanced_modeling" := by
  unfold mockProfileFor
  cases h : known_profiles.lookup t <;> simp [h, profileRec]

theorem generate_mock_state_independent (R : PyRandom) :
    ∀ (tickers : List String) (s1 s2 : ℕ),
      (generate_realistic_mock_data R tickers s1).1 =
      (generate_realistic_mock_data R tickers s2).1 := by
  intro tickers
  induction tickers with
  | nil => intro _ _; rfl
  | cons t tl ih =>
    intro s1 s2
    unfold generate_realistic_mock_data
    dsimp only
    rw [mockProfileFor_state_independent R t s1 s2,
      ih (mockProfileFor R t s1).2 (mockProfileFor R t s2).2]

/-- C7: for a fixed hash/seed/uniform model, the synthetic generator's
output for a ticker does not depend on the incoming generator state (it
re-seeds from the ticker hash), so two invocations produce identical
profiles, for one ticker and for whole batches; tickers in the
known-profile table get that profile verbatim; and all synthetic records
are tagged realistic_estimate / enhanced_modeling. -/
theorem mock_generation_deterministic (R : PyRandom) (s1 s2 : ℕ) :
    (∀ t, (mockProfileFor R t s1).1 = (mockProfileFor R t s2).1) ∧
    (∀ tickers, (generate_realistic_mock_data R tickers s1).1 =
      (generate_realistic_mock_data R tickers s2).1) ∧
    (∀ t p, known_profiles.lookup t = some p →
      ∀ s, (mockProfileFor R t s).1 = profileRec p) ∧
    (∀ t s, (mockProfileFor R t s).1.data_quality = "realistic_estimate" ∧
      (mockProfileFor R t s).1.source = "enhanced_modeling") := by
  refine ⟨fun t => mockProfileFor_state_independent R t s1 s2,
    fun tickers => generate_mock_state_independent R tickers s1 s2,
    ?_, fun t s => mockProfileFor_tags R t s⟩
  intro t p hp s
  unfold mockProfileFor
  rw [hp]

/-- C7 witness: the generator returns the known GME table profile verbatim
from any generator state. -/
theorem mock_generation_deterministic_witness :
    (mockProfileFor wRng "GME" 0).1 = profileRec (22.4, 89.2, 12.8, 4.1) :=
  (mock_generation_deterministic wRng 0 7).2.2.1 "GME" _ rfl 0

/-! ## C8: ticker universe and category selection (corrected: set order) -/

theorem mem_pyDedupAux (x : String) :
    ∀ (l seen : List String), x ∈ pyDedupAux seen l ↔ x ∈ l ∧ x ∉ seen := by
  intro l
  induction l with
  | nil => intro seen; simp [pyDedupAux]
  | cons y t ih =>
    intro seen
    unfold pyDedupAux
    split_ifs with hy
    · rw [ih seen]
      constructor
      · exact fun h => ⟨List.mem_cons_of_mem y h.1, h.2⟩
      · rintro ⟨h1, h2⟩
        rcases List.mem_cons.mp h1 with h3 | h3
        · exact absurd (h3 ▸ hy) h2
        · exact ⟨h3, h2⟩
    · simp only [List.mem_cons, ih (y :: seen)]
      constructor
      · rintro (h | ⟨h1, h2⟩)
        · exact ⟨Or.inl h, h ▸ hy⟩
        · exact ⟨Or.inr h1, fun hx => h2 (Or.inr hx)⟩
      · rintro ⟨h1 | h1, h2⟩
        · exact Or.inl h1
        · by_cases hxy : x = y
          · exact Or.inl hxy
          · exact Or.inr ⟨h1, fun hx => hx.elim hxy h2⟩

theorem pyDedupAux_nodup : ∀ (l seen : List String), (pyDedupAux seen l).Nodup := by
  intro l
  induction l with
  | nil => intro seen; exact List.nodup_nil
  | cons y t ih =>
    intro seen
    unfold pyDedupAux
    split_ifs with hy
    · exact ih seen
    · refine List.Nodup.cons ?_ (ih (y :: seen))
      intro hmem
      exact ((mem_pyDedupAux y t (y :: seen)).mp hmem).2 (List.mem_cons_self y seen)

theorem pyDedupAux_sublist : ∀ (l seen : List String), List.Sublist (pyDedupAux seen l) l := by
  intro l
  induction l with
  | nil => intro seen; exact List.Sublist.refl []
  | cons y t ih =>
    intro seen
    unfold pyDedupAux
    split_ifs with hy
    · exact (ih seen).cons y
    · exact (ih (y :: seen)).cons₂ y

theorem pyDedup_nodup (l : List String) : (pyDedup l).Nodup := pyDedupAux_nodup l []

theorem mem_pyDedup (x : String) (l : List String) : x ∈ pyDedup l ↔ x ∈ l := by
  rw [pyDedup, mem_pyDedupAux]
  simp

theorem pyDedup_sublist (l : List String) : List.Sublist (pyDedup l) l := pyDedupAux_sublist l []

theorem mem_foldl_append (g : String → List String) :
    ∀ (l : List String) (init : List String) (x : String),
      x ∈ l.foldl (fun acc c => acc ++ g c) init ↔ x ∈ init ∨ ∃ c ∈ l, x ∈ g c := by
  intro l
  induction l with
  | nil => intro init x; simp
  | cons c t ih =>
    intro init x
    rw [List.foldl_cons, ih (init ++ g c) x]
    simp only [List.mem_append, List.mem_cons]
    constructor
    · rintro ((h | h) | ⟨d, hd, hx⟩)
      · exact Or.inl h
      · exact Or.inr ⟨c, Or.inl rfl, h⟩
      · exact Or.inr ⟨d, Or.inr hd, hx⟩
    · rintro (h | ⟨d, hd | hd, hx⟩)
      · exact Or.inl (Or.inl h)
      · subst hd; exact Or.inl (Or.inr hx)
      · exact Or.inr ⟨d, hd, hx⟩

/-- C8 counterexample: category selection goes through `list(set(...))`,
whose iteration order need not preserve insertion order; for the
admissible order that reverses the distinct elements, selecting
large_cap_samples yields the reversed list, not the insertion-ordered
dedup the claim requires. -/
theorem ticker_selection_order_refuted : ¬ specC8OrderedClaim := by
  intro h
  have hv : ValidSetOrder (fun l => (pyDedup l).reverse) := by
    intro l
    refine ⟨List.nodup_reverse.mpr (pyDedup_nodup l), fun x => ?_⟩
    rw [List.mem_reverse, mem_pyDedup]
  have h2 := h _ hv ["large_cap_samples"] (by simp)
  exact absurd h2 (by decide)

/-- C8 (amended): the flat master list has no duplicates and preserves the
insertion order of the category tables (it is an order-preserving sublist
of their concatenation with the same members); selecting no categories
yields the full master list; selecting categories yields a deduplicated
list containing exactly the tickers of the recognized selected categories,
in an order determined by the runtime's set iteration order rather than
insertion order. -/
theorem ticker_selection_amended (f : List String → List String) (hf : ValidSetOrder f) :
    master_ticker_list.Nodup ∧
    List.Sublist master_ticker_list rawTickerConcat ∧
    (∀ x, x ∈ master_ticker_list ↔ x ∈ rawTickerConcat) ∧
    tickersFor f [] = master_ticker_list ∧
    (∀ cats : List String, cats ≠ [] →
      (tickersFor f cats).Nodup ∧
      (∀ x, x ∈ tickersFor f cats ↔
        ∃ c ∈ cats, ∃ ts, ticker_universe.lookup c = some ts ∧ x ∈ ts)) := by
  refine ⟨pyDedup_nodup _, pyDedup_sublist _, fun x => mem_pyDedup x _, rfl, ?_⟩
  intro cats hcats
  have hne : ¬ cats = [] := hcats
  constructor
  · rw [tickersFor, if_neg hne]
    exact (hf (selectedConcat cats)).1
  · intro x
    rw [tickersFor, if_neg hne, (hf (selectedConcat cats)).2 x, selectedConcat,
      mem_foldl_append (fun c => (ticker_universe.lookup c).getD []) cats [] x]
    simp only [List.not_mem_nil, false_or]
    constructor
    · rintro ⟨c, hc, hx⟩
      cases hts : ticker_universe.lookup c with
      | none => rw [hts] at hx; exact absurd hx (List.not_mem_nil x)
      | some ts => rw [hts] at hx; exact ⟨c, hc, ts, hts, hx⟩
    · rintro ⟨c, hc, ts, hts, hx⟩
      exact ⟨c, hc, by rw [hts]; exact hx⟩

/-- C8 witness: with the order-preserving dedup as set order, the empty
selection is the master list and a concrete selection is duplicate-free. -/
theorem ticker_selection_amended_witness :
    tickersFor pyDedup [] = master_ticker_list ∧
    (tickersFor pyDedup ["large_cap_samples"]).Nodup := by
  have h := ticker_selection_amended pyDedup (fun l => ⟨pyDedup_nodup l, fun x => mem_pyDedup x l⟩)
  exact ⟨h.2.2.2.1, (h.2.2.2.2 ["large_cap_samples"] (by simp)).1⟩

/-! ## C9: single-scan error handling -/

/-- C9: a single-scan request without a ticker (or with an empty ticker
string) is rejected with a 400 and success=false before any lookup — the
response does not depend on the environment at all, so no network call is
attempted; a nonempty ticker whose price lookup fails is rejected with a
400, success=false, and the distinct error message. -/
theorem single_scan_errors (env : ScanEnv) (envKey : Option String) (b : SingleScanBody) :
    (strUpper (b.ticker.getD "") = "" →
      (handle_single_scan env envKey b).status = 400 ∧
      (handle_single_scan env envKey b).success = false ∧
      (handle_single_scan env envKey b).error = some "No ticker provided" ∧
      (∀ env2 : ScanEnv, handle_single_scan env2 envKey b = handle_single_scan env envKey b)) ∧
    (strUpper (b.ticker.getD "") ≠ "" →
      env.price (strUpper (b.ticker.getD "")) = none →
      (handle_single_scan env envKey b).status = 400 ∧
      (handle_single_scan env envKey b).success = false ∧
      (handle_single_scan env envKey b).error = some "Failed to get price data") ∧
    some "Failed to get price data" ≠ (some "No ticker provided" : Option String) := by
  refine ⟨?_, ?_, by decide⟩
  · intro hemp
    unfold handle_single_scan
    rw [if_pos hemp]
    exact ⟨rfl, rfl, rfl, fun env2 => by simp [handle_single_scan, hemp]⟩
  · intro hne hp
    unfold handle_single_scan
    rw [if_neg hne, hp]
    exact ⟨rfl, rfl, rfl⟩

/-- C9 witness: a body without a ticker gets the 400 missing-ticker
response, and a ticker with no price data gets the distinct 400 price
error. -/
theorem single_scan_errors_witness :
    (handle_single_scan wEnv none { ticker := none, ortex_key := none }).status = 400 ∧
    (handle_single_scan wEnv none { ticker := some "zzz", ortex_key := none }).error =
      some "Failed to get price data" := by
  constructor
  · exact ((single_scan_errors wEnv none { ticker := none, ortex_key := none }).1 rfl).1
  · exact ((single_scan_errors wEnv none { ticker := some "zzz", ortex_key := none }).2.1
      (by decide) rfl).2.2

/-! ## C4: data-quality provenance and propagation -/

theorem tryEndpoints_quality (parseJson : String → Option OrtexJson) :
    ∀ (resps : List NetResp) (r : OrtexRec), tryEndpoints parseJson resps = some r →
      r.data_quality = "live_ortex" := by
  intro resps
  induction resps with
  | nil => intro r h; exact Option.noConfusion h
  | cons x tl ih =>
    intro r h
    cases x with
    | failure => exact ih r h
    | reply status ct body =>
      unfold tryEndpoints at h
      split_ifs at h with hs hct
      · cases hj : parseJson body with
        | none => rw [hj] at h; exact ih r h
        | some j =>
          rw [hj] at h
          have hpj : process_ortex_json j = r := by injection h
          exact hpj ▸ (process_ortex_json_tags j).1
      · exact ih r h
      · exact ih r h

theorem get_fast_quality (parseJson : String → Option OrtexJson)
    (key : Option String) (resps : List NetResp) (r : OrtexRec)
    (h : get_fast_ortex_data parseJson key resps = some r) :
    r.data_quality = "live_ortex" := by
  unfold get_fast_ortex_data at h
  split_ifs at h
  exact tryEndpoints_quality parseJson resps r h

theorem lookup_fetchMap (g : String → Option OrtexRec) :
    ∀ (l : List String) (t : String) (r : OrtexRec),
      (l.filterMap (fun u => (g u).map (fun rec => (u, rec)))).lookup t = some r →
      g t = some r := by
  intro l
  induction l with
  | nil => intro t r h; exact Option.noConfusion h
  | cons a tl ih =>
    intro t r h
    rw [List.filterMap_cons] at h
    cases ha : g a with
    | none => rw [ha] at h; exact ih t r h
    | some ra =>
      rw [ha] at h
      simp only [Option.map_some'] at h
      rw [List.lookup_cons] at h
      by_cases hta : t = a
      · subst hta
        simp only [beq_self_eq_true, if_true] at h
        rw [ha, h]
      · have hne : (t == a) = false := beq_eq_false_iff_ne.mpr hta
        rw [hne] at h
        simp only [Bool.false_eq_true, if_false] at h
        exact ih t r h

theorem liveFetched_lookup (env : ScanEnv) (key : Option String)
    (succ : List String) (t : String) (r : OrtexRec)
    (h : (liveFetched env key succ).lookup t = some r) :
    get_fast_ortex_data env.parseJson key (env.net t) = some r := by
  unfold liveFetched at h
  split_ifs at h with hc
  · exact lookup_fetchMap (fun u => get_fast_ortex_data env.parseJson key (env.net u))
      (succ.take 5) t r h
  · exact Option.noConfusion h

theorem liveFetched_key_false (env : ScanEnv) (key : Option String)
    (succ : List String) (hk : strTruthy key = false) :
    liveFetched env key succ = [] := by
  unfold liveFetched
  rw [if_neg]
  rintro ⟨h1, -⟩
  rw [hk] at h1
  exact Bool.noConfusion h1

theorem mock_lookup_tags (R : PyRandom) :
    ∀ (ts : List String) (s : ℕ) (t : String) (r : OrtexRec),
      (generate_realistic_mock_data R ts s).1.lookup t = some r →
      r.data_quality = "realistic_estimate" := by
  intro ts
  induction ts with
  | nil => intro s t r h; exact Option.noConfusion h
  | cons a tl ih =>
    intro s t r h
    unfold generate_realistic_mock_data at h
    dsimp only at h
    rw [List.lookup_cons] at h
    by_cases hta : t = a
    · subst hta
      rw [beq_self_eq_true] at h
      simp only [if_true] at h
      have h2 := mockProfileFor_tags R t s
      rw [Option.some.inj h] at h2
      exact h2.1
    · rw [beq_eq_false_iff_ne.mpr hta] at h
      simp only [Bool.false_eq_true, if_false] at h
      exact ih (mockProfileFor R a s).2 t r h

theorem scan_results_mem (env : ScanEnv) (key : Option String)
    (filters : Option ScanFilters) (r : ScanResult)
    (hr : r ∈ (perform_production_scan env key filters).results) :
    ∃ t p orec,
      env.price t = some p ∧
      r = buildResult t p orec ∧
      ((liveFetched env key (successfulTickers env filters)).lookup t = some orec ∨
        ((liveFetched env key (successfulTickers env filters)).lookup t = none ∧
         (scanMock env filters).lookup t = some orec)) := by
  have hr2 : r ∈ (successfulTickers env filters).filterMap
      (mergeTicker env (liveFetched env key (successfulTickers env filters))
        (scanMock env filters)) := by
    have heq : (perform_production_scan env key filters).results =
        rankResults ((successfulTickers env filters).filterMap
          (mergeTicker env (liveFetched env key (successfulTickers env filters))
            (scanMock env filters))) := rfl
    rw [heq] at hr
    exact List.mem_insertionSort scoreGe |>.mp hr
  obtain ⟨t, ht, hmerge⟩ := List.mem_filterMap.mp hr2
  unfold mergeTicker at hmerge
  cases hp : env.price t with
  | none => rw [hp] at hmerge; exact Option.noConfusion hmerge
  | some p =>
    rw [hp] at hmerge
    cases hf : (liveFetched env key (successfulTickers env filters)).lookup t with
    | some orec =>
      rw [hf] at hmerge
      exact ⟨t, p, orec, hp, (Option.some.inj hmerge).symm, Or.inl hf⟩
    | none =>
      rw [hf] at hmerge
      cases hm : (scanMock env filters).lookup t with
      | none => rw [hm] at hmerge; exact Option.noConfusion hmerge
      | some orec =>
        rw [hm] at hmerge
        exact ⟨t, p, orec, hp, (Option.some.inj hmerge).symm, Or.inr ⟨hf, hm⟩⟩

/-- C4: every scan result's data_quality is the metrics record's flag
copied unchanged; it equals the live tag only if the secondary-source fetch
for that ticker actually returned a parseable recognized payload, and is
the estimate tag otherwise — every result carries one of the two tags, and
whenever the fetch for a ticker yielded nothing (the credential may well be
present, e.g. every candidate endpoint failing) that result is an
estimate; in a scan with no credential every result carries the estimate
tag and the reported live_ortex_count is 0. -/
theorem data_quality_propagation (env : ScanEnv) (key : Option String)
    (filters : Option ScanFilters) :
    (∀ r ∈ (perform_production_scan env key filters).results,
      r.data_quality = r.ortex_data.data_quality) ∧
    (∀ r ∈ (perform_production_scan env key filters).results,
      r.data_quality = "live_ortex" →
      get_fast_ortex_data env.parseJson key (env.net r.ticker) = some r.ortex_data) ∧
    (∀ r ∈ (perform_production_scan env key filters).results,
      r.data_quality = "live_ortex" ∨ r.data_quality = "realistic_estimate") ∧
    (∀ r ∈ (perform_production_scan env key filters).results,
      get_fast_ortex_data env.parseJson key (env.net r.ticker) = none →
      r.data_quality = "realistic_estimate") ∧
    (strTruthy key = false →
      (∀ r ∈ (perform_production_scan env key filters).results,
        r.data_quality = "realistic_estimate") ∧
      (perform_production_scan env key filters).stats.live_ortex_count = 0) := by
  refine ⟨?_, ?_, ?_, ?_, ?_⟩
  · intro r hr
    obtain ⟨t, p, orec, hp, hbuild, hsrc⟩ := scan_results_mem env key filters r hr
    subst hbuild
    rfl
  · intro r hr hlive
    obtain ⟨t, p, orec, hp, hbuild, hsrc⟩ := scan_results_mem env key filters r hr
    subst hbuild
    rcases hsrc with hf | ⟨hf, hm⟩
    · exact liveFetched_lookup env key (successfulTickers env filters) t orec hf
    · have hq := mock_lookup_tags env.rng (successfulTickers env filters) env.rngState0 t orec hm
      have hlive2 : orec.data_quality = "live_ortex" := hlive
      rw [hq] at hlive2
      exact absurd hlive2 (by decide)
  · intro r hr
    obtain ⟨t, p, orec, hp, hbuild, hsrc⟩ := scan_results_mem env key filters r hr
    subst hbuild
    rcases hsrc with hf | ⟨hf, hm⟩
    · have hfetch := liveFetched_lookup env key (successfulTickers env filters) t orec hf
      exact Or.inl (get_fast_quality env.parseJson key (env.net t) orec hfetch)
    · exact Or.inr (mock_lookup_tags env.rng (successfulTickers env filters) env.rngState0 t orec hm)
  · intro r hr hnone
    obtain ⟨t, p, orec, hp, hbuild, hsrc⟩ := scan_results_mem env key filters r hr
    subst hbuild
    rcases hsrc with hf | ⟨hf, hm⟩
    · have hfetch := liveFetched_lookup env key (successfulTickers env filters) t orec hf
      have hnone2 : get_fast_ortex_data env.parseJson key (env.net t) = none := hnone
      rw [hfetch] at hnone2
      exact Option.noConfusion hnone2
    · exact mock_lookup_tags env.rng (successfulTickers env filters) env.rngState0 t orec hm
  · intro hk
    have hfe : liveFetched env key (successfulTickers env filters) = [] :=
      liveFetched_key_false env key (successfulTickers env filters) hk
    constructor
    · intro r hr
      obtain ⟨t, p, orec, hp, hbuild, hsrc⟩ := scan_results_mem env key filters r hr
      subst hbuild
      rcases hsrc with hf | ⟨hf, hm⟩
      · rw [hfe] at hf
        exact Option.noConfusion hf
      · exact mock_lookup_tags env.rng (successfulTickers env filters) env.rngState0 t orec hm
    · show (liveFetched env key (successfulTickers env filters)).length = 0
      rw [hfe]
      rfl

set_option maxRecDepth 8000 in
/-- C4 witness: a keyless scan of the large-cap category with only AAPL
priced yields a result tagged realistic_estimate and reports zero live
fetches; and in the same scan run with a credential, AAPL's metrics fetch
yields nothing (its endpoints produce no usable reply), so its result is
still tagged realistic_estimate. -/
theorem data_quality_propagation_witness :
    (perform_production_scan wEnv none wFilters).stats.live_ortex_count = 0 ∧
    get_fast_ortex_data wEnv.parseJson (some "k") (wEnv.net "AAPL") = none ∧
    (buildResult "AAPL" wPriceRec (mockProfileFor wRng "AAPL" 0).1).data_quality =
      "realistic_estimate" :=
  ⟨((data_quality_propagation wEnv none wFilters).2.2.2.2 rfl).2,
   rfl,
   (data_quality_propagation wEnv (some "k") wFilters).2.2.2.1 _ (List.mem_singleton.mpr rfl) rfl⟩

end SqueezeScanner
